import Mathlib

/-!
Verification of the discord-trivia library (TypeScript) against its
natural-language specification, via a shallow embedding in Lean 4.

The repository contains two revisions of the `TriviaGame` class:
* `src/Classes/TriviaGame.ts` (namespace `V1` below): the revision with the
  `GAME_IN_PROGRESS` guard in `start()`;
* the `TriviaGame` class bundled with `src/Typings/interfaces.ts`
  (namespace `V2` below): the revision with `startComponentCollector`,
  `beginGameLoop`, `emitQuestion` and `end` as methods.

Maps keyed by Discord snowflakes (`discord.js` `Collection`, a JS `Map`)
are embedded as association lists with `Map` semantics: `set` replaces an
existing binding in place or appends a fresh one, `delete` removes the
binding, `size` is the number of bindings.
-/

namespace DiscordTrivia

/-- Lookup in an association list keyed by snowflake strings (JS `Map.get`). -/
def lookupEntry (k : String) : List (String × α) → Option α
  | [] => none
  | (k₁, v) :: t => if k₁ = k then some v else lookupEntry k t

/-- JS `Map.set`: replace the binding for `k` in place, or append it. -/
def setEntry (k : String) (v : α) : List (String × α) → List (String × α)
  | [] => [(k, v)]
  | (k₁, v₁) :: t => if k₁ = k then (k, v) :: t else (k₁, v₁) :: setEntry k v t

/-- JS `Map.delete`: remove the binding for `k`. -/
def deleteEntry (k : String) : List (String × α) → List (String × α)
  | [] => []
  | (k₁, v₁) :: t => if k₁ = k then deleteEntry k t else (k₁, v₁) :: deleteEntry k t

/-- A `discord.js` `Collection` (a JS `Map` keyed by snowflake strings). -/
structure Collection (α : Type) where
  entries : List (String × α)
deriving Repr, DecidableEq

namespace Collection

def empty : Collection α := ⟨[]⟩

def get? (c : Collection α) (k : String) : Option α := lookupEntry k c.entries

def has (c : Collection α) (k : String) : Bool := (c.get? k).isSome

def set (c : Collection α) (k : String) (v : α) : Collection α := ⟨setEntry k v c.entries⟩

def delete (c : Collection α) (k : String) : Collection α := ⟨deleteEntry k c.entries⟩

def size (c : Collection α) : Nat := c.entries.length

end Collection

/-- `TriviaGameOptionsStrict` (`src/Typings/interfaces.ts`): the fully
populated option bag of a game.  The nullable fields (`triviaCategory`,
`questionDifficulty`, `questionType`) are embedded as `Option`; the
`gameMessages` bag of the `src/Classes/TriviaGame.ts` revision is pure
message text and is modelled by the message contents used below. -/
structure TriviaGameOptionsStrict where
  minPlayerCount : Nat
  maxPlayerCount : Nat
  timePerQuestion : Nat
  triviaCategory : Option String
  questionAmount : Nat
  questionDifficulty : Option String
  questionType : Option String
  queueTime : Nat
deriving Repr, DecidableEq

/-- `TriviaGameOptions`: the caller-supplied option bag, in which every
field may be absent.  For a nullable field, `some none` means the caller
explicitly supplied `null`. -/
structure TriviaGameOptions where
  minPlayerCount : Option Nat := none
  maxPlayerCount : Option Nat := none
  timePerQuestion : Option Nat := none
  triviaCategory : Option (Option String) := none
  questionAmount : Option Nat := none
  questionDifficulty : Option (Option String) := none
  questionType : Option (Option String) := none
  queueTime : Option Nat := none
deriving Repr, DecidableEq

namespace TriviaGame

/-- `TriviaGame.defaults`: the documented default options (identical scalar
values in both revisions of the class). -/
def defaults : TriviaGameOptionsStrict :=
  { minPlayerCount := 1
    maxPlayerCount := 50
    timePerQuestion := 20000
    triviaCategory := none
    questionAmount := 10
    questionDifficulty := none
    questionType := none
    queueTime := 15000 }

/-- JS `Object.assign(target, src)` on option bags: every field present in
`src` overrides the corresponding field of `target`.  The JS call MUTATES
`target` and returns it; the mutation is made explicit by `constructGame`
below. -/
def objectAssign (target : TriviaGameOptionsStrict) (src : TriviaGameOptions) :
    TriviaGameOptionsStrict :=
  { minPlayerCount := src.minPlayerCount.getD target.minPlayerCount
    maxPlayerCount := src.maxPlayerCount.getD target.maxPlayerCount
    timePerQuestion := src.timePerQuestion.getD target.timePerQuestion
    triviaCategory := src.triviaCategory.getD target.triviaCategory
    questionAmount := src.questionAmount.getD target.questionAmount
    questionDifficulty := src.questionDifficulty.getD target.questionDifficulty
    questionType := src.questionType.getD target.questionType
    queueTime := src.queueTime.getD target.queueTime }

/-- The `TriviaGame` constructor's option handling (both revisions):
`this.options = options ? Object.assign(TriviaGame.defaults, options)
: TriviaGame.defaults`.  Because `Object.assign` mutates its target, the
static `defaults` object itself is updated; the first component of the
result is the constructed game's `options`, the second is the value the
shared static `defaults` object holds AFTER the construction. -/
def constructGame (opts : Option TriviaGameOptions)
    (staticDefaults : TriviaGameOptionsStrict) :
    TriviaGameOptionsStrict × TriviaGameOptionsStrict :=
  match opts with
  | some o =>
    let mutated := objectAssign staticDefaults o
    (mutated, mutated)
  | none => (staticDefaults, staticDefaults)

end TriviaGame

/-- Modelled from the spec: the option validators
(`src/Utility/validateTriviaGameOptions.ts` in the first revision,
`manager.validator.validateGameOptions` in the second) are not among the
provided sources; the spec says error handling is "Limited to input
validation (option ranges) surfaced as thrown errors" and that
"validation rejects out-of-range values".  The validator is modelled as a
range check over the numeric options that throws (returns `.error`) on the
first out-of-range value. -/
def validateGameOptions (o : TriviaGameOptionsStrict) : Except String Unit :=
  if o.minPlayerCount < 1 then .error ("minPlayerCount is out of range")
  else if o.maxPlayerCount < o.minPlayerCount then .error ("maxPlayerCount is out of range")
  else if o.timePerQuestion < 1 then .error ("timePerQuestion is out of range")
  else if o.questionAmount < 1 then .error ("questionAmount is out of range")
  else if o.queueTime < 1 then .error ("queueTime is out of range")
  else .ok ()

/-- The per-game record held in the manager's `games` registry.  Only the
fields the claims depend on are kept: the channel the game is bound to, the
host (to distinguish two distinct game objects), and the merged options. -/
structure GameRec where
  channelId : String
  hostId : String
  options : TriviaGameOptionsStrict
deriving Repr, DecidableEq

/-- Errors surfaced by `TriviaGame.start` (first revision). -/
inductive DTError where
  | validation (msg : String)
  | gameInProgress
deriving Repr, DecidableEq

/-- Messages the embedding records being sent to Discord. -/
inductive Msg where
  | ephemeralReply (content : String)
  | channelSend (content : String)
  | embedSend (name : String)
deriving Repr, DecidableEq

namespace V1

/-- `TriviaGame.start` (`src/Classes/TriviaGame.ts`).  The body runs inside
a promise executor: `validateTriviaGameOptions` throws into the `catch`,
which rejects; when the channel already has a game the code calls
`reject(new DiscordTriviaError(..., 'GAME_IN_PROGRESS'))` WITHOUT a
`return`, so execution falls through to `manager.games.set(channel.id,
this)` and the ephemeral start reply regardless.  A promise settles on its
first `reject`, so the returned result is the `GAME_IN_PROGRESS` error even
though the side effects still happen.  The guild/channel fetches are
external SDK calls and are modelled as succeeding with a text channel (the
`TypeError` branches for a falsy `guildId` or a non-text channel concern
only SDK nulls and are not claimed). -/
def TriviaGame.start (g : GameRec) (games : Collection GameRec) :
    Except DTError Unit × Collection GameRec × List Msg :=
  match validateGameOptions g.options with
  | .error e => (.error (.validation e), games, [])
  | .ok _ =>
    let rejected := games.has g.channelId
    let games' := games.set g.channelId g
    let msgs := [Msg.ephemeralReply ("The game has started waiting for players. Once all the players have joined the game will begin!")]
    (if rejected then .error .gameInProgress else .ok (), games', msgs)

end V1

namespace V2

/-- A guild member as returned by `guild.members.fetch(userId)`; the
fetched member's `id` is the user id it was fetched by. -/
structure Member where
  id : String
  displayName : String
deriving Repr, DecidableEq

/-- The position record attached to each player. -/
structure LeaderboardPosition where
  previous : Nat
  current : Nat
deriving Repr, DecidableEq

/-- `TriviaPlayer`: a guild member augmented (via `Object.assign(member,
...)`) with the per-game fields created by the queue collector. -/
structure TriviaPlayer where
  id : String
  displayName : String
  points : Nat
  hasAnswered : Bool
  isCorrect : Bool
  leaderboardPosition : LeaderboardPosition
deriving Repr, DecidableEq

/-- The player object built by the queue `collect` handler:
`Object.assign(member, { points: 0, hasAnswered: false, isCorrect: false,
leaderboardPosition: { previous: 0, current: 0 } })`. -/
def newPlayer (m : Member) : TriviaPlayer :=
  { id := m.id
    displayName := m.displayName
    points := 0
    hasAnswered := false
    isCorrect := false
    leaderboardPosition := { previous := 0, current := 0 } }

/-- The state of the queue phase: the game's `players` collection and
whether `collector.stop(...)` has been called (a stopped collector
dispatches no further `collect` events). -/
structure QueueState where
  players : Collection TriviaPlayer
  stopped : Bool
deriving Repr, DecidableEq

/-- The queue collector starts with no players and a running collector. -/
def initialQueueState : QueueState := { players := Collection.empty, stopped := false }

/-- One button press reaching the queue collector: `press m` is a press by
user `m.id` for which `guild.members.fetch` returns `m`; `pressFail uid`
is a press for which the member fetch returns nothing. -/
inductive QueueEvent where
  | press (m : Member)
  | pressFail (uid : String)
deriving Repr, DecidableEq

/-- The queue collector's `collect` handler
(`startComponentCollector`, second revision): an already-queued user only
gets the ephemeral already-in-queue reply; otherwise the member is fetched,
the joined reply is sent, a fresh `TriviaPlayer` is stored under
`player.id`, the join is announced in the channel, and when the collection
reaches `maxPlayerCount` the collector is stopped. -/
def queueCollect (opts : TriviaGameOptionsStrict) (st : QueueState)
    (ev : QueueEvent) : QueueState × List Msg :=
  if st.stopped then (st, [])
  else
    match ev with
    | .press m =>
      if st.players.has m.id then
        (st, [Msg.ephemeralReply ("**You are already in the queue**")])
      else
        let player := newPlayer m
        let players := st.players.set player.id player
        ({ players := players
           stopped := players.size == opts.maxPlayerCount },
         [Msg.ephemeralReply ("Successfully joined queue"),
          Msg.channelSend ("**" ++ player.displayName ++ "** has joined in!")])
    | .pressFail uid =>
      if st.players.has uid then
        (st, [Msg.ephemeralReply ("**You are already in the queue**")])
      else
        (st, [Msg.ephemeralReply ("Failed to enter you into the queue, please try again")])

/-- The queue phase: the collector's `collect` events processed in order
(the event loop is single threaded). -/
def runQueue (opts : TriviaGameOptionsStrict) (events : List QueueEvent) : QueueState :=
  events.foldl (fun st ev => (queueCollect opts st ev).1) initialQueueState

/-- `collector.endReason` as read by the queue collector's `end` handler.
In discord.js v13 (the SDK revision this code targets) `endReason` is a
getter computed from the `max`, `maxComponents` and `maxUsers` collector
options; the queue collector is created with only `filter` and `time`, so
the getter yields `null` however the collector ends (time expiry or the
explicit capacity `stop`). -/
def queueCollectorEndReason : Option String := none

/-- `TriviaGame.end` (named `endGame` here because `end` is reserved in
Lean): deletes this game's record from the manager's registry. -/
def TriviaGame.endGame (g : GameRec) (games : Collection GameRec) : Collection GameRec :=
  games.delete g.channelId

/-- Outcome of the queue collector's `end` handler: whether
`initializeGame()` runs (the game proceeds into its question rounds), the
manager's registry afterwards, and the messages sent by the handler. -/
structure QueueEndOutcome where
  proceeds : Bool
  games : Collection GameRec
  messages : List Msg
deriving Repr, DecidableEq

/-- The queue collector's `end` handler: if `collector.endReason` is truthy
or the player count reached `minPlayerCount`, `initializeGame()` runs;
otherwise `this.end()` deletes the game record and the failure message is
sent.  (The best-effort deletion of the queue message,
`queueMessage.delete().catch(...)`, touches no modelled state.) -/
def queueEnd (opts : TriviaGameOptionsStrict) (g : GameRec) (st : QueueState)
    (games : Collection GameRec) : QueueEndOutcome :=
  if queueCollectorEndReason.isSome || decide (opts.minPlayerCount ≤ st.players.size) then
    { proceeds := true, games := games, messages := [] }
  else
    { proceeds := false
      games := TriviaGame.endGame g games
      messages := [Msg.channelSend ("Game failed to meet minimum player requirements")] }

/-- `TriviaGame.start` (second revision): validates the Discord structures
and the game options, registers the game under its channel id, replies
ephemerally, and starts the queue.  `structures` is the outcome of the
external `validator.validateDiscordStructures(this)` check; both validators
throw into the promise executor's `catch`, which rejects. -/
def TriviaGame.start (g : GameRec) (structures : Except String Unit)
    (games : Collection GameRec) :
    Except String Unit × Collection GameRec × List Msg :=
  match structures with
  | .error e => (.error e, games, [])
  | .ok _ =>
    match validateGameOptions g.options with
    | .error e => (.error e, games, [])
    | .ok _ =>
      (.ok (), games.set g.channelId g,
       [Msg.ephemeralReply ("Game has been started"), Msg.embedSend ("gameQueueStart")])

/-- A trivia question as used by `emitQuestion`: `checkAnswer` is the
`easy-trivia` callback carried on the fetched question object. -/
structure GameQuestion where
  value : String
  correctAnswer : String
  allAnswers : List String
  checkAnswer : String → Bool

/-- `question.checkAnswer(question.allAnswers[idx])`: a JS index beyond the
array yields `undefined`, which the string check never matches. -/
def checkAnswerAt (q : GameQuestion) (idx : Nat) : Bool :=
  match q.allAnswers.get? idx with
  | some s => q.checkAnswer s
  | none => false

/-- The question collector's `collect` handler (`emitQuestion`): its filter
admits only registered players (`this.players.has(i.user.id)`); a press
whose button index hits the correct answer increments that player's
`points` in place; every press then announces that the player locked in.
The handler never touches `hasAnswered`, `isCorrect` or any other
player's record. -/
def answerCollect (q : GameQuestion) (players : Collection TriviaPlayer)
    (uid : String) (idx : Nat) : Collection TriviaPlayer :=
  match players.get? uid with
  | none => players
  | some player =>
    if checkAnswerAt q idx then
      players.set uid { player with points := player.points + 1 }
    else
      players

/-- One step of the game loop's observable trace. -/
inductive GameEvent where
  | sendPrep
  | waitMs (n : Nat)
  | sendQuestion (q : GameQuestion)
  | collectAnswers (duration : Nat)
  | sendLeaderboard

/-- `emitQuestion`: sends the question embed with its answer-button row,
collects answers for `options.timePerQuestion` (during which
`answerCollect` tallies points), and on collector end sends the
leaderboard embed and waits 5000 ms before resolving. -/
def emitQuestion (opts : TriviaGameOptionsStrict) (q : GameQuestion) : List GameEvent :=
  [GameEvent.sendQuestion q, GameEvent.collectAnswers opts.timePerQuestion,
   GameEvent.sendLeaderboard, GameEvent.waitMs 5000]

/-- `beginGameLoop`: for each fetched question in order, announce the next
question, wait 5000 ms, then run `emitQuestion` to completion. -/
def beginGameLoop (opts : TriviaGameOptionsStrict) : List GameQuestion → List GameEvent
  | [] => []
  | q :: rest =>
    GameEvent.sendPrep :: GameEvent.waitMs 5000 :: (emitQuestion opts q ++ beginGameLoop opts rest)

end V2

/-- Invariant maintained by the queue collector: a stopped collector
stopped exactly at capacity, and a running one is strictly below it. -/
def queueInvariant (opts : TriviaGameOptionsStrict) (st : V2.QueueState) : Prop :=
  (st.stopped = true → st.players.size = opts.maxPlayerCount) ∧
  (st.stopped = false → st.players.size < opts.maxPlayerCount)

/-! Concrete inputs used to instantiate the theorems below. -/

def gExisting : GameRec := { channelId := "chan", hostId := "hostA", options := TriviaGame.defaults }

def gNew : GameRec := { channelId := "chan", hostId := "hostB", options := TriviaGame.defaults }

def gC3 : GameRec := { channelId := "chan3", hostId := "host3", options := TriviaGame.defaults }

def regC3 : Collection GameRec := Collection.empty.set ("chan3") gC3

def gC4 : GameRec := { channelId := "chan4", hostId := "host4", options := TriviaGame.defaults }

def memC4 : V2.Member := { id := "user4", displayName := "PlayerFour" }

def badOpts : TriviaGameOptionsStrict := { TriviaGame.defaults with minPlayerCount := 0 }

def gBad : GameRec := { channelId := "chan5", hostId := "host5", options := badOpts }

def gC6 : GameRec := { channelId := "chan6a", hostId := "host6", options := TriviaGame.defaults }

def gC6other : GameRec := { channelId := "chan6b", hostId := "host6b", options := TriviaGame.defaults }

def regC6 : Collection GameRec := (Collection.empty.set ("chan6a") gC6).set ("chan6b") gC6other

def memC8 : V2.Member := { id := "user8", displayName := "PlayerEight" }

def stC8 : V2.QueueState :=
  { players := Collection.empty.set ("user8") (V2.newPlayer memC8), stopped := false }

def qC9 : V2.GameQuestion :=
  { value := "Water is wet?"
    correctAnswer := "True"
    allAnswers := ["True", "False"]
    checkAnswer := fun s => s == "True" }

def pC9 : V2.TriviaPlayer := V2.newPlayer { id := "user9", displayName := "PlayerNine" }

def playersC9 : Collection V2.TriviaPlayer := Collection.empty.set ("user9") pC9

def memC10 : V2.Member := { id := "user10", displayName := "PlayerTen" }

namespace Collection

theorem lookupEntry_setEntry_self (k : String) (v : α) (l : List (String × α)) :
    lookupEntry k (setEntry k v l) = some v := by
  induction l with
  | nil => simp [setEntry, lookupEntry]
  | cons h t ih =>
    by_cases hk : h.1 = k
    · simp [setEntry, hk, lookupEntry]
    · simp [setEntry, hk, lookupEntry, ih]

theorem lookupEntry_setEntry_ne (k k₂ : String) (v : α) (l : List (String × α))
    (hne : k₂ ≠ k) : lookupEntry k₂ (setEntry k v l) = lookupEntry k₂ l := by
  have hkk : ¬(k = k₂) := fun hc => hne hc.symm
  induction l with
  | nil => simp [setEntry, lookupEntry, hkk]
  | cons p t ih =>
    by_cases hk : p.1 = k
    · have hp : ¬(p.1 = k₂) := by rw [hk]; exact hkk
      simp [setEntry, hk, lookupEntry, hkk, hp]
    · simp [setEntry, hk, lookupEntry, ih]

theorem lookupEntry_deleteEntry_self (k : String) (l : List (String × α)) :
    lookupEntry k (deleteEntry k l) = none := by
  induction l with
  | nil => simp [deleteEntry, lookupEntry]
  | cons h t ih =>
    by_cases hk : h.1 = k
    · simp [deleteEntry, hk, ih]
    · simp [deleteEntry, hk, lookupEntry, ih]

theorem lookupEntry_deleteEntry_ne (k k₂ : String) (l : List (String × α))
    (hne : k₂ ≠ k) : lookupEntry k₂ (deleteEntry k l) = lookupEntry k₂ l := by
  have hkk : ¬(k = k₂) := fun hc => hne hc.symm
  induction l with
  | nil => simp [deleteEntry]
  | cons p t ih =>
    by_cases hk : p.1 = k
    · have hp : ¬(p.1 = k₂) := by rw [hk]; exact hkk
      simp [deleteEntry, hk, lookupEntry, hp, hkk, ih]
    · simp [deleteEntry, hk, lookupEntry, ih]

theorem length_setEntry_of_not_has (k : String) (v : α) (l : List (String × α))
    (habs : lookupEntry k l = none) :
    (setEntry k v l).length = l.length + 1 := by
  induction l with
  | nil => simp [setEntry]
  | cons h t ih =>
    by_cases hk : h.1 = k
    · simp [lookupEntry, hk] at habs
    · simp [lookupEntry, hk] at habs
      simp [setEntry, hk, ih habs]

theorem get?_set_self (c : Collection α) (k : String) (v : α) :
    (c.set k v).get? k = some v := lookupEntry_setEntry_self k v c.entries

theorem get?_set_ne (c : Collection α) (k k₂ : String) (v : α) (hne : k₂ ≠ k) :
    (c.set k v).get? k₂ = c.get? k₂ := lookupEntry_setEntry_ne k k₂ v c.entries hne

theorem get?_delete_self (c : Collection α) (k : String) :
    (c.delete k).get? k = none := lookupEntry_deleteEntry_self k c.entries

theorem get?_delete_ne (c : Collection α) (k k₂ : String) (hne : k₂ ≠ k) :
    (c.delete k).get? k₂ = c.get? k₂ := lookupEntry_deleteEntry_ne k k₂ c.entries hne

theorem size_set_of_not_has (c : Collection α) (k : String) (v : α)
    (habs : c.has k = false) : (c.set k v).size = c.size + 1 := by
  have hlook : lookupEntry k c.entries = none := by
    have hb := habs
    simp [has, get?, Option.isSome] at hb
    cases hk : lookupEntry k c.entries with
    | none => rfl
    | some v₁ => rw [hk] at hb; simp at hb
  exact length_setEntry_of_not_has k v c.entries hlook

end Collection

theorem newPlayer_id (m : V2.Member) : (V2.newPlayer m).id = m.id := rfl

theorem queueInvariant_mk (opts : TriviaGameOptionsStrict)
    (players : Collection V2.TriviaPlayer)
    (hle : players.size ≤ opts.maxPlayerCount) :
    queueInvariant opts
      { players := players, stopped := players.size == opts.maxPlayerCount } := by
  constructor
  · intro hbeq
    exact beq_iff_eq.mp hbeq
  · intro hbeq
    exact Nat.lt_of_le_of_ne hle (beq_eq_false_iff_ne.mp hbeq)

theorem queueCollect_preserves_invariant (opts : TriviaGameOptionsStrict)
    (st : V2.QueueState) (ev : V2.QueueEvent) (hinv : queueInvariant opts st) :
    queueInvariant opts (V2.queueCollect opts st ev).1 := by
  obtain ⟨hstop, hrun⟩ := hinv
  cases hs : st.stopped with
  | true =>
    simp only [V2.queueCollect, hs, if_true]
    exact ⟨hstop, hrun⟩
  | false =>
    cases ev with
    | press m =>
      by_cases hm : st.players.has m.id
      · simp only [V2.queueCollect, hs, Bool.false_eq_true, if_false, hm, if_true]
        exact ⟨hstop, hrun⟩
      · have hm' : st.players.has m.id = false := by
          cases hv : st.players.has m.id with
          | true => exact absurd hv hm
          | false => rfl
        have hsize : (st.players.set m.id (V2.newPlayer m)).size = st.players.size + 1 :=
          Collection.size_set_of_not_has st.players m.id (V2.newPlayer m) hm'
        have hlt : st.players.size < opts.maxPlayerCount := hrun hs
        have hle : (st.players.set m.id (V2.newPlayer m)).size ≤ opts.maxPlayerCount := by
          rw [hsize]; exact Nat.succ_le_of_lt hlt
        simpa only [V2.queueCollect, hs, Bool.false_eq_true, if_false, hm', newPlayer_id]
          using queueInvariant_mk opts (st.players.set m.id (V2.newPlayer m)) hle
    | pressFail uid =>
      by_cases hm : st.players.has uid
      · simp only [V2.queueCollect, hs, Bool.false_eq_true, if_false, hm, if_true]
        exact ⟨hstop, hrun⟩
      · have hm' : st.players.has uid = false := by
          cases hv : st.players.has uid with
          | true => exact absurd hv hm
          | false => rfl
        simp only [V2.queueCollect, hs, Bool.false_eq_true, if_false, hm']
        exact ⟨hstop, hrun⟩

theorem runQueue_invariant (opts : TriviaGameOptionsStrict)
    (hmax : 1 ≤ opts.maxPlayerCount) (events : List V2.QueueEvent) :
    queueInvariant opts (V2.runQueue opts events) := by
  have hgen : ∀ (es : List V2.QueueEvent) (st : V2.QueueState), queueInvariant opts st →
      queueInvariant opts (es.foldl (fun s e => (V2.queueCollect opts s e).1) st) := by
    intro es
    induction es with
    | nil => intro st h; exact h
    | cons e t ih =>
      intro st h
      exact ih _ (queueCollect_preserves_invariant opts st e h)
  refine hgen events V2.initialQueueState ?_
  constructor
  · intro hc
    simp [V2.initialQueueState] at hc
  · intro _
    simpa [V2.initialQueueState, Collection.size, Collection.empty] using hmax

/-- C1: starting a game in a channel that already has an ongoing game does
reject the returned promise with the `GAME_IN_PROGRESS` error, but —
because the code calls `reject` without `return` — execution continues and
`manager.games.set(channel.id, this)` REPLACES the registry entry with the
new game, contrary to the claim (and to the code's own error message,
"There can only be one ongoing game per channel").  Evaluated at a
registry that already maps channel `chan` to `gExisting`: starting `gNew`
rejects with `GAME_IN_PROGRESS`, yet afterwards the registry maps `chan`
to `gNew`, a game distinct from `gExisting`. -/
theorem c1_game_in_progress_still_overwrites_registry :
    (V1.TriviaGame.start gNew (Collection.empty.set ("chan") gExisting)).1 =
      Except.error DTError.gameInProgress ∧
    (V1.TriviaGame.start gNew (Collection.empty.set ("chan") gExisting)).2.1.get? ("chan") =
      some gNew ∧
    gNew ≠ gExisting ∧
    (Collection.empty.set ("chan") gExisting).get? ("chan") = some gExisting :=
  ⟨rfl, rfl, by decide, rfl⟩

/-- C2: option merging does NOT always produce the documented defaults,
because `Object.assign(TriviaGame.defaults, options)` mutates the shared
static `defaults` object.  Constructing a first game with
`minPlayerCount := 5` and then a second game with no options at all gives
the second game `minPlayerCount = 5`, while the documented default is 1
(a fresh first construction with no options does yield the defaults). -/
theorem c2_static_defaults_mutated_by_object_assign :
    (TriviaGame.constructGame none TriviaGame.defaults).1 = TriviaGame.defaults ∧
    (TriviaGame.constructGame (some { minPlayerCount := some 5 })
      TriviaGame.defaults).1.minPlayerCount = 5 ∧
    (TriviaGame.constructGame none
      (TriviaGame.constructGame (some { minPlayerCount := some 5 })
        TriviaGame.defaults).2).1.minPlayerCount = 5 ∧
    TriviaGame.defaults.minPlayerCount = 1 :=
  ⟨rfl, rfl, rfl, rfl⟩

/-- C6: when a game ends, `TriviaGame.end` deletes exactly this game's
record from the manager's registry: afterwards the games collection no
longer contains this game's channel id, and the entry for every other
channel id is unchanged. -/
theorem c6_end_deletes_only_own_channel (games : Collection GameRec) (g : GameRec) :
    (V2.TriviaGame.endGame g games).get? g.channelId = none ∧
    ∀ c, c ≠ g.channelId → (V2.TriviaGame.endGame g games).get? c = games.get? c :=
  ⟨Collection.get?_delete_self games g.channelId,
   fun c hc => Collection.get?_delete_ne games g.channelId c hc⟩

/-- Witness for C6 at a registry holding games for channels `chan6a` and
`chan6b`: ending the `chan6a` game removes its record and leaves the
`chan6b` record intact. -/
theorem c6_end_deletes_only_own_channel_witness :
    (V2.TriviaGame.endGame gC6 regC6).get? ("chan6a") = none ∧
    (V2.TriviaGame.endGame gC6 regC6).get? ("chan6b") = regC6.get? ("chan6b") :=
  ⟨(c6_end_deletes_only_own_channel regC6 gC6).1,
   (c6_end_deletes_only_own_channel regC6 gC6).2 ("chan6b") (by decide)⟩

/-- C7: each round follows the fixed lifecycle in order, for every fetched
question in fetch order: the game loop's trace is exactly, per question,
the preparation notice and 5 s wait, then the question message with its
answer buttons, a collection phase lasting `timePerQuestion` (during which
`answerCollect` tallies correct answers into player points), then the
leaderboard embed — all before the next question's block begins. -/
theorem c7_round_lifecycle_order (opts : TriviaGameOptionsStrict)
    (qs : List V2.GameQuestion) :
    V2.beginGameLoop opts qs =
      qs.flatMap (fun q =>
        [V2.GameEvent.sendPrep, V2.GameEvent.waitMs 5000, V2.GameEvent.sendQuestion q,
         V2.GameEvent.collectAnswers opts.timePerQuestion, V2.GameEvent.sendLeaderboard,
         V2.GameEvent.waitMs 5000]) := by
  induction qs with
  | nil => rfl
  | cons q rest ih =>
    simp [V2.beginGameLoop, V2.emitQuestion, ih, List.flatMap_cons]

/-- C3: if, when the queue phase ends, the number of joined players is
strictly below `minPlayerCount`, the game does not start its question
rounds: the record is deleted from the manager's registry and the
minimum-requirements failure message is sent — for every queue state and
registry, and for every way the collector ends (in discord.js v13 the
`endReason` getter of this collector yields `null` both on time expiry
and after the capacity `stop`, see `queueCollectorEndReason`). -/
theorem c3_below_min_players_aborts_game (opts : TriviaGameOptionsStrict) (g : GameRec)
    (st : V2.QueueState) (games : Collection GameRec)
    (h : st.players.size < opts.minPlayerCount) :
    (V2.queueEnd opts g st games).proceeds = false ∧
    (V2.queueEnd opts g st games).games.get? g.channelId = none ∧
    (V2.queueEnd opts g st games).messages =
      [Msg.channelSend ("Game failed to meet minimum player requirements")] := by
  have hnle : ¬(opts.minPlayerCount ≤ st.players.size) := Nat.not_le.mpr h
  refine ⟨?_, ?_, ?_⟩ <;>
    simp [V2.queueEnd, V2.queueCollectorEndReason, hnle, V2.TriviaGame.endGame,
      Collection.get?_delete_self]

/-- Witness for C3: with the default options (`minPlayerCount = 1`) and an
empty queue, the end handler aborts, deletes the `chan3` record, and sends
the failure message. -/
theorem c3_below_min_players_aborts_game_witness :
    (V2.queueEnd TriviaGame.defaults gC3 V2.initialQueueState regC3).proceeds = false ∧
    (V2.queueEnd TriviaGame.defaults gC3 V2.initialQueueState regC3).games.get? ("chan3") =
      none ∧
    (V2.queueEnd TriviaGame.defaults gC3 V2.initialQueueState regC3).messages =
      [Msg.channelSend ("Game failed to meet minimum player requirements")] :=
  c3_below_min_players_aborts_game TriviaGame.defaults gC3 V2.initialQueueState regC3
    (by decide)

/-- C4: the queue's collect handler never grows the players collection
beyond `maxPlayerCount` — whenever the handler stopped the collector, the
size is exactly `maxPlayerCount` — and every game that proceeds into its
question rounds has between `minPlayerCount` and `maxPlayerCount`
players.  Holds for every sequence of queue button presses, provided the
configured `maxPlayerCount` is at least 1 (the validated range). -/
theorem c4_player_count_bounds (opts : TriviaGameOptionsStrict) (g : GameRec)
    (games : Collection GameRec) (events : List V2.QueueEvent)
    (hmax : 1 ≤ opts.maxPlayerCount) :
    (V2.runQueue opts events).players.size ≤ opts.maxPlayerCount ∧
    ((V2.runQueue opts events).stopped = true →
      (V2.runQueue opts events).players.size = opts.maxPlayerCount) ∧
    ((V2.queueEnd opts g (V2.runQueue opts events) games).proceeds = true →
      opts.minPlayerCount ≤ (V2.runQueue opts events).players.size ∧
      (V2.runQueue opts events).players.size ≤ opts.maxPlayerCount) := by
  obtain ⟨hstop, hrun⟩ := runQueue_invariant opts hmax events
  have hle : (V2.runQueue opts events).players.size ≤ opts.maxPlayerCount := by
    cases hs : (V2.runQueue opts events).stopped with
    | true => exact Nat.le_of_eq (hstop hs)
    | false => exact Nat.le_of_lt (hrun hs)
  refine ⟨hle, hstop, ?_⟩
  intro hp
  refine ⟨?_, hle⟩
  by_cases hmin : opts.minPlayerCount ≤ (V2.runQueue opts events).players.size
  · exact hmin
  · exfalso
    have hfalse : (V2.queueEnd opts g (V2.runQueue opts events) games).proceeds = false := by
      simp [V2.queueEnd, V2.queueCollectorEndReason, hmin]
    rw [hfalse] at hp
    exact Bool.false_ne_true hp

/-- Witness for C4: with the default options and a single successful join,
the bounds hold and the game that proceeds has one player. -/
theorem c4_player_count_bounds_witness :
    (V2.runQueue TriviaGame.defaults [V2.QueueEvent.press memC4]).players.size ≤
      TriviaGame.defaults.maxPlayerCount ∧
    ((V2.runQueue TriviaGame.defaults [V2.QueueEvent.press memC4]).stopped = true →
      (V2.runQueue TriviaGame.defaults [V2.QueueEvent.press memC4]).players.size =
        TriviaGame.defaults.maxPlayerCount) ∧
    ((V2.queueEnd TriviaGame.defaults gC4
        (V2.runQueue TriviaGame.defaults [V2.QueueEvent.press memC4])
        Collection.empty).proceeds = true →
      TriviaGame.defaults.minPlayerCount ≤
        (V2.runQueue TriviaGame.defaults [V2.QueueEvent.press memC4]).players.size ∧
      (V2.runQueue TriviaGame.defaults [V2.QueueEvent.press memC4]).players.size ≤
        TriviaGame.defaults.maxPlayerCount) :=
  c4_player_count_bounds TriviaGame.defaults gC4 Collection.empty
    [V2.QueueEvent.press memC4] (by decide)

/-- C5: for every options value that fails validation, `TriviaGame.start`
(second revision) rejects before any game state is changed: the game is
not added to the manager's registry (the registry is returned unchanged)
and no reply or queue message is sent; this holds whatever the outcome of
the preceding Discord-structure validation. -/
theorem c5_invalid_options_reject_before_state_change (g : GameRec)
    (structures : Except String Unit) (games : Collection GameRec) (e : String)
    (hval : validateGameOptions g.options = Except.error e) :
    (∃ msg, (V2.TriviaGame.start g structures games).1 = Except.error msg) ∧
    (V2.TriviaGame.start g structures games).2.1 = games ∧
    (V2.TriviaGame.start g structures games).2.2 = [] := by
  cases structures with
  | error e₂ => exact ⟨⟨e₂, rfl⟩, rfl, rfl⟩
  | ok u =>
    cases u
    refine ⟨⟨e, ?_⟩, ?_, ?_⟩ <;> simp [V2.TriviaGame.start, hval]

/-- Witness for C5: options with `minPlayerCount = 0` fail the range check,
and starting a game with them rejects with the registry and message list
untouched. -/
theorem c5_invalid_options_reject_before_state_change_witness :
    (∃ msg, (V2.TriviaGame.start gBad (Except.ok ()) Collection.empty).1 =
      Except.error msg) ∧
    (V2.TriviaGame.start gBad (Except.ok ()) Collection.empty).2.1 = Collection.empty ∧
    (V2.TriviaGame.start gBad (Except.ok ()) Collection.empty).2.2 = [] :=
  c5_invalid_options_reject_before_state_change gBad (Except.ok ()) Collection.empty
    "minPlayerCount is out of range" rfl

/-- C8: joining the queue is idempotent: a press by a user whose id is
already in the players collection leaves the queue state (players and
collector) unchanged and sends only the ephemeral already-in-queue
reply. -/
theorem c8_join_idempotent_when_already_queued (opts : TriviaGameOptionsStrict)
    (st : V2.QueueState) (m : V2.Member)
    (hrunning : st.stopped = false) (hmem : st.players.has m.id = true) :
    V2.queueCollect opts st (V2.QueueEvent.press m) =
      (st, [Msg.ephemeralReply ("**You are already in the queue**")]) := by
  simp [V2.queueCollect, hrunning, hmem]

/-- Witness for C8: pressing Join again with `user8` already queued leaves
the state unchanged and sends only the already-in-queue reply. -/
theorem c8_join_idempotent_when_already_queued_witness :
    V2.queueCollect TriviaGame.defaults stC8 (V2.QueueEvent.press memC8) =
      (stC8, [Msg.ephemeralReply ("**You are already in the queue**")]) :=
  c8_join_idempotent_when_already_queued TriviaGame.defaults stC8 memC8 rfl rfl

/-- C9: during a question, a collected press from a registered player whose
button indexes the correct answer increments exactly that player's points
by 1 and changes no other player's record; the handler never touches
`hasAnswered`, so the same player's repeated correct presses within one
question each add a point (two presses add 2). -/
theorem c9_correct_press_increments_points (q : V2.GameQuestion)
    (players : Collection V2.TriviaPlayer) (uid : String) (idx : Nat)
    (p : V2.TriviaPlayer)
    (hget : players.get? uid = some p) (hcorrect : V2.checkAnswerAt q idx = true) :
    (V2.answerCollect q players uid idx).get? uid =
      some { p with points := p.points + 1 } ∧
    (∀ u, u ≠ uid → (V2.answerCollect q players uid idx).get? u = players.get? u) ∧
    ({ p with points := p.points + 1 } : V2.TriviaPlayer).hasAnswered = p.hasAnswered ∧
    (V2.answerCollect q (V2.answerCollect q players uid idx) uid idx).get? uid =
      some { p with points := p.points + 2 } := by
  have h1 : V2.answerCollect q players uid idx =
      players.set uid { p with points := p.points + 1 } := by
    simp [V2.answerCollect, hget, hcorrect]
  have hget1 : (V2.answerCollect q players uid idx).get? uid =
      some { p with points := p.points + 1 } := by
    rw [h1]; exact Collection.get?_set_self players uid _
  refine ⟨hget1, ?_, rfl, ?_⟩
  · intro u hu
    rw [h1]
    exact Collection.get?_set_ne players uid u _ hu
  · generalize hX : V2.answerCollect q players uid idx = X at hget1 ⊢
    have h2 : V2.answerCollect q X uid idx =
        X.set uid { p with points := p.points + 2 } := by
      simp [V2.answerCollect, hget1, hcorrect]
    rw [h2]
    exact Collection.get?_set_self X uid _

/-- Witness for C9: `user9` presses button 0 (the correct answer `True`)
once and then a second time; each press adds one point, and another
user's (absent) record is unaffected. -/
theorem c9_correct_press_increments_points_witness :
    (V2.answerCollect qC9 playersC9 ("user9") 0).get? ("user9") =
      some { pC9 with points := pC9.points + 1 } ∧
    (V2.answerCollect qC9 playersC9 ("user9") 0).get? ("other") = playersC9.get? ("other") ∧
    (V2.answerCollect qC9 (V2.answerCollect qC9 playersC9 ("user9") 0) "user9" 0).get?
      "user9" = some { pC9 with points := pC9.points + 2 } :=
  ⟨(c9_correct_press_increments_points qC9 playersC9 ("user9") 0 pC9 rfl rfl).1,
   (c9_correct_press_increments_points qC9 playersC9 ("user9") 0 pC9 rfl rfl).2.1 ("other")
     (by decide),
   (c9_correct_press_increments_points qC9 playersC9 ("user9") 0 pC9 rfl rfl).2.2.2⟩

/-- C10: every player added to the queue starts in the same initial state —
points 0, `hasAnswered` false, `isCorrect` false, and a leaderboard
position with previous and current both 0 — and is keyed in the players
collection by the member's id. -/
theorem c10_new_player_initial_state (opts : TriviaGameOptionsStrict)
    (st : V2.QueueState) (m : V2.Member)
    (hrunning : st.stopped = false) (hnew : st.players.has m.id = false) :
    (V2.queueCollect opts st (V2.QueueEvent.press m)).1.players.get? m.id =
      some (V2.newPlayer m) ∧
    (V2.newPlayer m).points = 0 ∧
    (V2.newPlayer m).hasAnswered = false ∧
    (V2.newPlayer m).isCorrect = false ∧
    (V2.newPlayer m).leaderboardPosition = { previous := 0, current := 0 } ∧
    (V2.newPlayer m).id = m.id := by
  refine ⟨?_, rfl, rfl, rfl, rfl, rfl⟩
  simp only [V2.queueCollect, hrunning, Bool.false_eq_true, if_false, hnew, newPlayer_id]
  exact Collection.get?_set_self st.players m.id (V2.newPlayer m)

/-- Witness for C10: `user10` joins an empty queue and is stored under
their id with the initial player record. -/
theorem c10_new_player_initial_state_witness :
    (V2.queueCollect TriviaGame.defaults V2.initialQueueState
      (V2.QueueEvent.press memC10)).1.players.get? ("user10") =
      some (V2.newPlayer memC10) ∧
    (V2.newPlayer memC10).points = 0 ∧
    (V2.newPlayer memC10).hasAnswered = false ∧
    (V2.newPlayer memC10).isCorrect = false ∧
    (V2.newPlayer memC10).leaderboardPosition = { previous := 0, current := 0 } ∧
    (V2.newPlayer memC10).id = "user10" :=
  c10_new_player_initial_state TriviaGame.defaults V2.initialQueueState memC10 rfl rfl

end DiscordTrivia
